import Mathlib

/- Verification development for the profile-management router
   (src/openmemory/api/app/routers/profile.py).

   The router is a flat sequence of request handlers over a persisted User
   row.  External collaborators (subscription checker, SMS verification and
   rate-limit helpers, database session) are modelled as follows: their
   success or failure verdicts are explicit inputs carried by an `Env`
   record, and collaborators whose code lives outside the provided sources
   are given definitions modelled from the specification, marked as such in
   their doc comments.  Python `re` digit classes are modelled with ASCII
   digits (`Char.isDigit`); optional columns are `Option` values and Python
   truthiness on them is made explicit. -/

set_option autoImplicit false

/-- Modelled from the spec: the subscription-tier enum of `app/models.py`
    (not under the provided sources); the spec describes it as
    FREE/PRO/ENTERPRISE. -/
inductive SubscriptionTier where
  | FREE
  | PRO
  | ENTERPRISE
deriving DecidableEq

/-- Modelled from the spec: the string value of a tier, as returned in
    profile and usage responses. -/
def SubscriptionTier.value : SubscriptionTier → String
  | .FREE => "free"
  | .PRO => "pro"
  | .ENTERPRISE => "enterprise"

/-- The persisted user row (section 3 of the spec): identity, subscription
    tier, phone/SMS columns and an open-ended metadata mapping.  Optional
    columns are `Option` values. -/
structure User where
  id : Nat
  user_id : String
  email : Option String
  name : Option String
  subscription_tier : SubscriptionTier
  phone_number : Option String
  phone_verified : Option Bool
  phone_verification_attempts : Option Nat
  phone_verified_at : Option Nat
  sms_enabled : Option Bool
  metadata_ : List (String × String)
deriving DecidableEq

/-- The `sms_config` object consumed by the router: configured flag and the
    numeric settings the handlers read. -/
structure SmsConfig where
  is_configured : Bool
  SMS_VERIFICATION_TIMEOUT : Nat
  SMS_RATE_LIMIT_PRO : Int
  SMS_RATE_LIMIT_ENTERPRISE : Int
deriving DecidableEq

/-- Environment of one request: the other database rows (for the
    phone-uniqueness query), the collaborator verdicts, and whether the
    commit raises. -/
structure Env where
  config : SmsConfig
  dbUsers : List User
  generated_code : String
  store_ok : Bool
  send_ok : Bool
  verify_ok : Bool
  sms_allowed : Bool
  sms_remaining : Int
  commit_fails : Bool
deriving DecidableEq

/-- Python truthiness of an optional string: `None` and the empty string
    are falsy. -/
def optStrTruthy : Option String → Bool
  | none => false
  | some s => !s.isEmpty

/-- Outcome of a handler: a successful response together with the final
    user state, an `HTTPException` (status, detail) recording whether
    `db.rollback()` was called and the resulting user state, or an uncaught
    exception propagating out of the handler (no rollback performed). -/
inductive HandlerOutcome (α : Type) where
  | ok (resp : α) (user : User)
  | httpError (status : Nat) (detail : String) (rolledBack : Bool) (user : User)
  | uncaught (user : User)
deriving DecidableEq

/-- Is the outcome a permission (403) error? -/
def is_permission_error {α : Type} : HandlerOutcome α → Bool
  | .httpError 403 _ _ _ => true
  | _ => false

/- Validators (the pydantic request models). -/

/-- Characters kept by the cleaning substitution of the validator, which
    deletes everything outside the digit-or-plus class (digits modelled as
    ASCII). -/
def keepPhoneChar (c : Char) : Bool := c.isDigit || c = '+'

/-- The cleaned character list of a phone-number input. -/
def cleanPhone (v : String) : List Char := v.data.filter keepPhoneChar

/-- Country-code stripping: drop a leading `+1`, else a leading `1`
    (the two `startswith` branches of the validator). -/
def stripCountryCode (l : List Char) : List Char :=
  if l.take 2 = ['+', '1'] then l.drop 2
  else if l.take 1 = ['1'] then l.drop 1
  else l

/-- `PhoneNumberRequest.validate_phone_number`: clean the input, strip a
    leading country code, require exactly 10 remaining characters, and
    return the E.164 form `+1` followed by those characters. -/
def validate_phone_number (v : String) : Option String :=
  let cleaned := stripCountryCode (cleanPhone v)
  if cleaned.length = 10 then some ("+1" ++ String.mk cleaned) else none

/-- Greedy match of exactly `n` digit characters at the head of the list
    (the fixed-count digit part of the code regex), returning the rest. -/
def pyDigitConsume : Nat → List Char → Option (List Char)
  | 0, l => some l
  | _ + 1, [] => none
  | n + 1, c :: l => if c.isDigit then pyDigitConsume n l else none

/-- Python dollar anchor: matches at the end of the string or just before a
    newline at the end of the string. -/
def pyDollarAt : List Char → Bool
  | [] => true
  | [c] => c == '\n'
  | _ => false

/-- `VerificationCodeRequest.validate_code`: accept iff the input matches
    the anchored six-digit regex under Python semantics, returning the
    input unchanged. -/
def validate_code (v : String) : Option String :=
  if (pyDigitConsume 6 v.data).elim false pyDollarAt then some v else none

/- Collaborators. -/

/-- Modelled from the spec: `SubscriptionChecker.check_pro_features`
    (app/middleware/subscription_middleware.py, not under the provided
    sources).  Per the spec it is a subscription-entitlement checker that
    fails loudly, with a permission error, if the caller lacks the Pro or
    Enterprise tier.  Returns the raised (status, detail) or `none` when
    the check passes. -/
def check_pro_features (u : User) : Option (Nat × String) :=
  if u.subscription_tier = .PRO ∨ u.subscription_tier = .ENTERPRISE then none
  else some (403, "SMS integration requires a Pro or Enterprise subscription")

/-- Deletion of a key from the metadata mapping (Python dict `del`,
    mapping semantics: at most one entry per key). -/
def pyDelKey (m : List (String × String)) (k : String) : List (String × String) :=
  m.filter fun p => p.1 != k

/-- Key membership in the metadata mapping (Python `in`). -/
def hasKey (m : List (String × String)) (k : String) : Bool :=
  m.any fun p => p.1 == k

namespace SMSVerification

/-- Modelled from the spec: `SMSVerification.store_verification_code`
    (app/utils/sms.py, not under the provided sources).  Per the spec the
    handler persists the generated code as a pending verification entry in
    the metadata mapping; storage may fail.  The success verdict is
    supplied by the environment. -/
def store_verification_code (u : User) (env : Env) : Bool × User :=
  if env.store_ok then
    (true, { u with metadata_ :=
      ("sms_verification", env.generated_code) :: pyDelKey u.metadata_ "sms_verification" })
  else (false, u)

/-- Modelled from the spec: `SMSVerification.verify_code` (app/utils/sms.py,
    not under the provided sources).  It checks the submitted code against
    stored state; per the state machine (PendingVerification to Verified on
    correct code) and section 8 (successful verification sets
    verified=true) a successful check marks the phone verified.  The match
    verdict is supplied by the environment. -/
def verify_code (u : User) (_code : String) (env : Env) : Bool × User :=
  if env.verify_ok then (true, { u with phone_verified := some true }) else (false, u)

end SMSVerification

/-- The attempt-cap condition of `add_phone_number`, with Python
    short-circuit truthiness: `user.phone_verification_attempts and
    user.phone_verification_attempts >= 5`. -/
def attempts_exceeded (u : User) : Bool :=
  match u.phone_verification_attempts with
  | none => false
  | some n => if n = 0 then false else decide (5 ≤ n)

/-- The phone-uniqueness query of `add_phone_number`: some other row holds
    this phone number. -/
def phone_taken_by_other (u : User) (phone : String) (db : List User) : Bool :=
  db.any fun o => o.phone_number == some phone && o.id != u.id

/- Handlers. -/

/-- Response shape of `GET /profile`. -/
structure ProfileResponse where
  user_id : String
  email : Option String
  name : Option String
  subscription_tier : String
  phone_number : Option String
  phone_verified : Bool
  sms_enabled : Bool
deriving DecidableEq

/-- `get_profile`: snapshot of the user row; `phone_verified or False`;
    sms_enabled defaults to true when unset. -/
def get_profile (u : User) : ProfileResponse :=
  { user_id := u.user_id
    email := u.email
    name := u.name
    subscription_tier := u.subscription_tier.value
    phone_number := u.phone_number
    phone_verified := u.phone_verified.getD false
    sms_enabled := u.sms_enabled.getD true }

/-- Response shape of `POST /profile/phone/add`. -/
structure AddPhoneResponse where
  message : String
  phone_number : String
  expires_in_minutes : Nat
deriving DecidableEq

/-- `add_phone_number`: entitlement check, SMS-configured check, attempt
    cap, phone-uniqueness check, then store and send the code, mutate the
    user and commit (rollback and 500 on commit failure).  `phone` is the
    already-validated request phone number. -/
def add_phone_number (u : User) (phone : String) (env : Env) : HandlerOutcome AddPhoneResponse :=
  match check_pro_features u with
  | some e => .httpError e.1 e.2 false u
  | none =>
    if !env.config.is_configured then
      .httpError 503 "SMS service is not available at this time" false u
    else if attempts_exceeded u then
      .httpError 429 "Too many verification attempts. Please try again later." false u
    else if phone_taken_by_other u phone env.dbUsers then
      .httpError 409 "This phone number is already registered to another account" false u
    else
      match SMSVerification.store_verification_code u env with
      | (false, _) => .httpError 500 "Failed to store verification code" false u
      | (true, u1) =>
        if !env.send_ok then
          .httpError 500 "Failed to send verification code" false u1
        else
          let u2 := { u1 with
            phone_number := some phone
            phone_verified := some false
            phone_verification_attempts := some (u1.phone_verification_attempts.getD 0 + 1) }
          if env.commit_fails then
            .httpError 500 "Database error" true u
          else
            .ok { message := "Verification code sent to your phone"
                  phone_number := phone
                  expires_in_minutes := env.config.SMS_VERIFICATION_TIMEOUT / 60 } u2

/-- Response shape of `POST /profile/phone/verify`. -/
structure VerifyResponse where
  message : String
  phone_number : Option String
  verified : Bool
deriving DecidableEq

/-- `verify_phone_number`: entitlement check, phone-present check (Python
    truthiness), then delegate to the verification collaborator; on match
    reset the attempt counter, enable SMS and commit.  The commit is not
    wrapped in try/except: a commit failure propagates as an uncaught
    exception with no rollback. -/
def verify_phone_number (u : User) (code : String) (env : Env) : HandlerOutcome VerifyResponse :=
  match check_pro_features u with
  | some e => .httpError e.1 e.2 false u
  | none =>
    if !optStrTruthy u.phone_number then
      .httpError 400 "No phone number to verify. Please add a phone number first." false u
    else
      match SMSVerification.verify_code u code env with
      | (true, u1) =>
        let u2 := { u1 with phone_verification_attempts := some 0, sms_enabled := some true }
        if env.commit_fails then
          .uncaught u2
        else
          .ok { message := "Phone number verified successfully"
                phone_number := u2.phone_number
                verified := true } u2
      | (false, u1) =>
        .httpError 400 "Invalid or expired verification code" false u1

/-- Response shape of `DELETE /profile/phone`. -/
structure MessageResponse where
  message : String
deriving DecidableEq

/-- `remove_phone_number`: unconditionally clear the phone/SMS columns,
    drop a pending `sms_verification` metadata entry (guarded by Python
    truthiness and key membership), and commit (rollback and 500 on commit
    failure). -/
def remove_phone_number (u : User) (env : Env) : HandlerOutcome MessageResponse :=
  let u1 := { u with
    phone_number := none
    phone_verified := some false
    phone_verification_attempts := some 0
    phone_verified_at := none
    sms_enabled := some false }
  let md :=
    if !u1.metadata_.isEmpty && hasKey u1.metadata_ "sms_verification" then
      pyDelKey u1.metadata_ "sms_verification"
    else u1.metadata_
  let u2 := { u1 with metadata_ := md }
  if env.commit_fails then
    .httpError 500 "Database error" true u
  else
    .ok { message := "Phone number removed successfully" } u2

/-- Response shape of `PUT /profile/sms/settings`. -/
structure SmsSettingsResponse where
  message : String
  sms_enabled : Bool
deriving DecidableEq

/-- `update_sms_settings`: require a verified phone (Python truthiness of
    the optional flag), then set the flag and commit (rollback and 500 on
    commit failure). -/
def update_sms_settings (u : User) (enabled : Bool) (env : Env) :
    HandlerOutcome SmsSettingsResponse :=
  if !u.phone_verified.getD false then
    .httpError 400 "Phone number must be verified before changing SMS settings" false u
  else
    let u1 := { u with sms_enabled := some enabled }
    if env.commit_fails then
      .httpError 500 "Database error" true u
    else
      .ok { message := "SMS settings updated successfully", sms_enabled := enabled } u1

/-- Response shape of `GET /profile/sms/usage`. -/
structure UsageResponse where
  daily_limit : Int
  used_today : Int
  remaining_today : Int
  subscription_tier : String
  phone_verified : Bool
  sms_enabled : Bool
deriving DecidableEq

/-- The usage computation of `get_sms_usage` after the entitlement check:
    tier-selected daily limit, used = limit - remaining when allowed, else
    used = limit. -/
def sms_usage_stats (u : User) (env : Env) : UsageResponse :=
  let daily_limit : Int :=
    match u.subscription_tier with
    | .ENTERPRISE => env.config.SMS_RATE_LIMIT_ENTERPRISE
    | .PRO => env.config.SMS_RATE_LIMIT_PRO
    | _ => 0
  let used_today : Int := if env.sms_allowed then daily_limit - env.sms_remaining else daily_limit
  { daily_limit := daily_limit
    used_today := used_today
    remaining_today := env.sms_remaining
    subscription_tier := u.subscription_tier.value
    phone_verified := u.phone_verified.getD false
    sms_enabled := u.sms_enabled.getD true }

/-- `get_sms_usage`: entitlement check, then the usage statistics; no
    state change and no commit. -/
def get_sms_usage (u : User) (env : Env) : HandlerOutcome UsageResponse :=
  match check_pro_features u with
  | some e => .httpError e.1 e.2 false u
  | none => .ok (sms_usage_stats u env) u

/- Claim-level vocabulary. -/

/-- The significant digits of a phone input under the claim reading: the
    digit characters of the input, minus a leading `1` country code. -/
def significant_digits (v : String) : List Char :=
  let d := v.data.filter Char.isDigit
  if d.take 1 = ['1'] then d.drop 1 else d

/-- The input has no stray plus sign: every plus character kept by the
    cleaning step is part of a leading `+1` country code. -/
def noStrayPlus (v : String) : Prop :=
  '+' ∉ cleanPhone v ∨
    ((cleanPhone v).take 2 = ['+', '1'] ∧ '+' ∉ (cleanPhone v).drop 2)

instance (v : String) : Decidable (noStrayPlus v) := by
  unfold noStrayPlus; infer_instance

/- Sample data for witnesses. -/

/-- A Pro-tier user with a phone number pending verification. -/
def samplePro : User :=
  { id := 1
    user_id := "user-1"
    email := some "alice@example.com"
    name := some "Alice"
    subscription_tier := .PRO
    phone_number := some "+15551234567"
    phone_verified := some false
    phone_verification_attempts := some 1
    phone_verified_at := none
    sms_enabled := none
    metadata_ := [("sms_verification", "111111"), ("theme", "dark")] }

/-- The same user on the free tier. -/
def sampleFree : User := { samplePro with subscription_tier := .FREE }

/-- A baseline environment in which every collaborator succeeds. -/
def sampleEnv : Env :=
  { config := { is_configured := true
                SMS_VERIFICATION_TIMEOUT := 600
                SMS_RATE_LIMIT_PRO := 50
                SMS_RATE_LIMIT_ENTERPRISE := 200 }
    dbUsers := []
    generated_code := "123456"
    store_ok := true
    send_ok := true
    verify_ok := true
    sms_allowed := true
    sms_remaining := 10
    commit_fails := false }

example : validate_phone_number "(555) 123-4567" = some "+15551234567" := by decide
example : validate_phone_number "+1 555 123 4567" = some "+15551234567" := by decide
example : validate_phone_number "555-1234" = none := by decide
example : validate_code "123456" = some "123456" := by decide
example : validate_code "12345" = none := by decide
example : validate_code "1234567" = none := by decide

/- General lemmas about the embedded definitions. -/

/-- If the cleaning step keeps no plus sign, it agrees with the plain digit
    filter. -/
theorem filter_keep_eq_digit (l : List Char) (h : '+' ∉ l.filter keepPhoneChar) :
    l.filter keepPhoneChar = l.filter Char.isDigit := by
  have hl : '+' ∉ l := fun hm => h (List.mem_filter.2 ⟨hm, by decide⟩)
  apply List.filter_congr
  intro c hc
  have hne : c ≠ '+' := fun he => hl (he ▸ hc)
  simp [keepPhoneChar, hne]

/-- The digit characters of the input are the digit characters surviving
    the cleaning step. -/
theorem filter_isDigit_cleanPhone (v : String) :
    (cleanPhone v).filter Char.isDigit = v.data.filter Char.isDigit := by
  unfold cleanPhone
  rw [List.filter_filter]
  congr 1
  funext c
  by_cases hd : c.isDigit = true <;> simp [keepPhoneChar, hd]

/-- Under the no-stray-plus condition, the stripped character list of the
    validator is exactly the significant digits of the input. -/
theorem stripCountryCode_eq_significant (v : String) (h : noStrayPlus v) :
    stripCountryCode (cleanPhone v) = significant_digits v := by
  rcases h with h | ⟨h1, h2⟩
  · have e : cleanPhone v = v.data.filter Char.isDigit := filter_keep_eq_digit v.data h
    have hplus : ∀ c ∈ v.data.filter Char.isDigit, c ≠ '+' := by
      intro c hc he
      have : ¬ ('+' : Char).isDigit = true := by decide
      exact this (he ▸ List.of_mem_filter hc)
    unfold stripCountryCode significant_digits
    rw [e]
    have hno2 : ¬ (v.data.filter Char.isDigit).take 2 = ['+', '1'] := by
      intro ht
      have : '+' ∈ (v.data.filter Char.isDigit).take 2 := by rw [ht]; simp
      exact hplus '+' (List.mem_of_mem_take this) rfl
    simp [hno2]
  · have hrest : ∀ c ∈ (cleanPhone v).drop 2, c.isDigit = true := by
      intro c hc
      have hne : c ≠ '+' := fun he => h2 (he ▸ hc)
      have hk : keepPhoneChar c = true := List.of_mem_filter (List.mem_of_mem_drop hc)
      rcases (by simpa [keepPhoneChar] using hk : c.isDigit = true ∨ c = '+') with h3 | h3
      · exact h3
      · exact absurd h3 hne
    have hsplit : cleanPhone v = '+' :: '1' :: (cleanPhone v).drop 2 := by
      conv_lhs => rw [← List.take_append_drop 2 (cleanPhone v)]
      rw [h1]
      rfl
    have hd : v.data.filter Char.isDigit = '1' :: (cleanPhone v).drop 2 := by
      rw [← filter_isDigit_cleanPhone v]
      conv_lhs => rw [hsplit]
      have e1 : ('+' : Char).isDigit = false := by decide
      have e2 : ('1' : Char).isDigit = true := by decide
      simp [List.filter_cons, e1, e2, List.filter_eq_self.2 hrest]
    unfold stripCountryCode significant_digits
    rw [h1, hd]
    simp

/-- The significant digits of an input are digit characters. -/
theorem significant_digits_are_digits (v : String) :
    ∀ c ∈ significant_digits v, c.isDigit = true := by
  intro c hc
  unfold significant_digits at hc
  by_cases h1 : (v.data.filter Char.isDigit).take 1 = ['1']
  · simp only [h1, if_true] at hc
    exact List.of_mem_filter (List.mem_of_mem_drop hc)
  · simp only [h1, if_false] at hc
    exact List.of_mem_filter hc

/-- Deleting an absent key from the metadata mapping is the identity. -/
theorem pyDelKey_eq_self (m : List (String × String)) (k : String)
    (h : hasKey m k = false) : pyDelKey m k = m := by
  refine List.filter_eq_self.2 ?_
  intro p hp
  cases hq : p.1 == k
  · simp [bne, hq]
  · exact absurd (show hasKey m k = true by
      rw [hasKey, List.any_eq_true]; exact ⟨p, hp, hq⟩) (by simp [h])

/-- The metadata-cleanup conditional of `remove_phone_number` always
    computes the deletion of the pending-verification key. -/
theorem delKey_collapse (m : List (String × String)) (k : String) :
    (if !m.isEmpty && hasKey m k then pyDelKey m k else m) = pyDelKey m k := by
  by_cases h : hasKey m k = true
  · have hne : m.isEmpty = false := by
      cases m with
      | nil => simp [hasKey] at h
      | cons a t => rfl
    simp [h, hne]
  · have heq : pyDelKey m k = m :=
      pyDelKey_eq_self m k (by simpa using h)
    simp [h, heq]

/-- Characterization of the digit-consuming matcher. -/
theorem pyDigitConsume_eq_some (n : Nat) (l r : List Char) :
    pyDigitConsume n l = some r ↔
      n ≤ l.length ∧ (l.take n).all Char.isDigit ∧ r = l.drop n := by
  induction n generalizing l with
  | zero => simp [pyDigitConsume, eq_comm]
  | succ n ih =>
    cases l with
    | nil => simp [pyDigitConsume]
    | cons c t =>
      by_cases hc : c.isDigit = true
      · simp [pyDigitConsume, hc, ih, Nat.succ_le_succ_iff]
      · simp [pyDigitConsume, hc]

/-- The dollar anchor matches exactly the empty rest and a lone trailing
    newline. -/
theorem pyDollarAt_iff (l : List Char) : pyDollarAt l = true ↔ l = [] ∨ l = ['\n'] := by
  match l with
  | [] => simp [pyDollarAt]
  | [c] => simp [pyDollarAt]
  | c1 :: c2 :: t => simp [pyDollarAt]

/- Claim C1. -/

/-- C1 counterexample: in `verify_phone_number` the commit is not wrapped
    in try/except.  At this concrete input the commit raises and the
    outcome is an uncaught exception: no rollback is performed and no
    internal error is surfaced, refuting the claim that every commit
    failure in a handler is rolled back before an internal error is
    returned. -/
theorem verify_commit_failure_uncaught_cex :
    ({ sampleEnv with commit_fails := true } : Env).commit_fails = true ∧
    verify_phone_number samplePro "123456" { sampleEnv with commit_fails := true } =
      .uncaught { samplePro with
        phone_verified := some true
        phone_verification_attempts := some 0
        sms_enabled := some true } := by decide

/-- C1 (amended): the commits of `remove_phone_number`,
    `update_sms_settings` and `add_phone_number` are wrapped: on commit
    failure the transaction is rolled back and a 500 internal error is
    surfaced.  The commit of `verify_phone_number` is not wrapped, so on
    the success path a commit failure propagates as an uncaught exception
    with no rollback. -/
theorem commit_failure_rollback_amended (u : User) (env : Env) (phone code : String) (b : Bool)
    (hc : env.commit_fails = true) :
    remove_phone_number u env = .httpError 500 "Database error" true u ∧
    (u.phone_verified.getD false = true →
      update_sms_settings u b env = .httpError 500 "Database error" true u) ∧
    (check_pro_features u = none → env.config.is_configured = true →
      attempts_exceeded u = false → phone_taken_by_other u phone env.dbUsers = false →
      env.store_ok = true → env.send_ok = true →
      add_phone_number u phone env = .httpError 500 "Database error" true u) ∧
    (check_pro_features u = none → optStrTruthy u.phone_number = true →
      env.verify_ok = true →
      verify_phone_number u code env = .uncaught { u with
        phone_verified := some true
        phone_verification_attempts := some 0
        sms_enabled := some true }) := by
  refine ⟨?_, ?_, ?_, ?_⟩
  · simp [remove_phone_number, hc]
  · intro hv
    simp [update_sms_settings, hv, hc]
  · intro h1 h2 h3 h4 h5 h6
    simp [add_phone_number, h1, h2, h3, h4, SMSVerification.store_verification_code, h5, h6, hc]
  · intro h1 h2 h3
    simp [verify_phone_number, h1, h2, SMSVerification.verify_code, h3, hc]

/-- C1 witness: the amended theorem at a concrete commit-failing request. -/
theorem commit_failure_rollback_amended_witness :
    remove_phone_number samplePro { sampleEnv with commit_fails := true } =
      .httpError 500 "Database error" true samplePro :=
  (commit_failure_rollback_amended samplePro { sampleEnv with commit_fails := true }
    "+15551234567" "123456" true rfl).1

/- Claim C2. -/

/-- C2: when the entitlement check passes, a phone number is present and
    the verification collaborator accepts the code, `verify_phone_number`
    resets the attempt counter to 0, marks the phone verified (an effect of
    the spec-modelled collaborator), enables SMS, commits, and returns
    success carrying the phone number. -/
theorem verify_success_resets_and_enables (u : User) (code : String) (env : Env)
    (h1 : check_pro_features u = none) (h2 : optStrTruthy u.phone_number = true)
    (h3 : env.verify_ok = true) (h4 : env.commit_fails = false) :
    verify_phone_number u code env =
      .ok { message := "Phone number verified successfully"
            phone_number := u.phone_number
            verified := true }
        { u with phone_verified := some true
                 phone_verification_attempts := some 0
                 sms_enabled := some true } := by
  simp [verify_phone_number, h1, h2, SMSVerification.verify_code, h3, h4]

/-- C2 witness: the theorem at a concrete pending-verification user. -/
theorem verify_success_resets_and_enables_witness :
    verify_phone_number samplePro "123456" sampleEnv =
      .ok { message := "Phone number verified successfully"
            phone_number := samplePro.phone_number
            verified := true }
        { samplePro with phone_verified := some true
                         phone_verification_attempts := some 0
                         sms_enabled := some true } :=
  verify_success_resets_and_enables samplePro "123456" sampleEnv (by decide) (by decide) rfl rfl

/- Claim C3. -/

/-- C3 counterexample: the cleaning step keeps plus signs, which then count
    toward the 10-character length check.  This input has only 9
    significant digits (and no country code), yet the validator accepts it
    and stores a value containing a stray plus sign, refuting the claim
    that every input with a significant-digit count other than 10 is
    rejected. -/
theorem phone_validator_digit_count_cex :
    (significant_digits "234567890+").length = 9 ∧
    validate_phone_number "234567890+" = some "+1234567890+" := by decide

/-- C3 (amended): for inputs in which a kept plus sign occurs only as part
    of a leading `+1` country code, the validator accepts exactly the
    inputs with 10 significant digits (a leading `1` being stripped as
    country code) and stores `+1` followed by those digits; for other
    inputs the kept plus signs count toward the 10-character check, so
    acceptance does not track the significant-digit count. -/
theorem phone_validator_significant_digits (v s : String) (h : noStrayPlus v) :
    validate_phone_number v = some s ↔
      (significant_digits v).length = 10 ∧ s = "+1" ++ String.mk (significant_digits v) := by
  unfold validate_phone_number
  rw [stripCountryCode_eq_significant v h]
  by_cases hl : (significant_digits v).length = 10 <;> simp [hl, eq_comm]

/-- C3 witness: the amended theorem at a concrete formatted input. -/
theorem phone_validator_significant_digits_witness :
    noStrayPlus "(555) 123-4567" ∧
    validate_phone_number "(555) 123-4567" = some "+15551234567" :=
  ⟨by decide,
    (phone_validator_significant_digits "(555) 123-4567" "+15551234567" (by decide)).2
      (by decide)⟩

/- Claim C4. -/

/-- C4: the precondition checks of `add_phone_number` run in order and each
    failure short-circuits with its error kind: missing Pro/Enterprise
    entitlement gives a 403, SMS not configured a 503, an attempt counter
    of 5 or more a 429 (for every environment, in particular when no other
    row holds the phone number), and a phone number held by a different
    user a 409.  The last conjunct characterizes the attempt-cap
    condition. -/
theorem add_phone_precondition_order (u : User) (phone : String) (env : Env) :
    (u.subscription_tier = .FREE →
      add_phone_number u phone env =
        .httpError 403 "SMS integration requires a Pro or Enterprise subscription" false u) ∧
    (check_pro_features u = none → env.config.is_configured = false →
      add_phone_number u phone env =
        .httpError 503 "SMS service is not available at this time" false u) ∧
    (check_pro_features u = none → env.config.is_configured = true →
      attempts_exceeded u = true →
      add_phone_number u phone env =
        .httpError 429 "Too many verification attempts. Please try again later." false u) ∧
    (check_pro_features u = none → env.config.is_configured = true →
      attempts_exceeded u = false → phone_taken_by_other u phone env.dbUsers = true →
      add_phone_number u phone env =
        .httpError 409 "This phone number is already registered to another account" false u) ∧
    (attempts_exceeded u = true ↔
      ∃ n, u.phone_verification_attempts = some n ∧ 5 ≤ n) := by
  refine ⟨?_, ?_, ?_, ?_, ?_⟩
  · intro hf
    have hcp : check_pro_features u =
        some (403, "SMS integration requires a Pro or Enterprise subscription") := by
      simp [check_pro_features, hf]
    simp [add_phone_number, hcp]
  · intro h1 h2
    simp [add_phone_number, h1, h2]
  · intro h1 h2 h3
    simp [add_phone_number, h1, h2, h3]
  · intro h1 h2 h3 h4
    simp [add_phone_number, h1, h2, h3, h4]
  · unfold attempts_exceeded
    cases hatt : u.phone_verification_attempts with
    | none => simp
    | some n =>
      by_cases hz : n = 0
      · subst hz; simp
      · simp [hz]

/-- C4 witness: the theorem at a concrete conflicting request. -/
theorem add_phone_precondition_order_witness :
    add_phone_number samplePro "+15550000000"
        { sampleEnv with dbUsers := [{ samplePro with id := 2, phone_number := some "+15550000000" }] } =
      .httpError 409 "This phone number is already registered to another account" false samplePro :=
  (add_phone_precondition_order samplePro "+15550000000"
    { sampleEnv with dbUsers := [{ samplePro with id := 2, phone_number := some "+15550000000" }] }
    ).2.2.2.1 (by decide) rfl (by decide) (by decide)

/- Claim C5. -/

/-- C5: `remove_phone_number` unconditionally clears the phone number, the
    verified flag, the attempt counter, the verified-at timestamp and the
    sms-enabled flag, deletes any pending `sms_verification` entry from the
    metadata mapping, and leaves every other user field unchanged. -/
theorem remove_phone_clears_state (u : User) (env : Env) (h : env.commit_fails = false) :
    remove_phone_number u env =
      .ok { message := "Phone number removed successfully" }
        { u with phone_number := none
                 phone_verified := some false
                 phone_verification_attempts := some 0
                 phone_verified_at := none
                 sms_enabled := some false
                 metadata_ := pyDelKey u.metadata_ "sms_verification" } := by
  simp [remove_phone_number, h, delKey_collapse]
  intro hcond
  by_cases hm : u.metadata_ = []
  · simp [hm, pyDelKey]
  · exact (pyDelKey_eq_self u.metadata_ "sms_verification" (hcond hm)).symm

/-- C5 witness: the theorem at a concrete user holding a pending
    verification entry and an unrelated metadata entry. -/
theorem remove_phone_clears_state_witness :
    remove_phone_number samplePro sampleEnv =
      .ok { message := "Phone number removed successfully" }
        { samplePro with phone_number := none
                         phone_verified := some false
                         phone_verification_attempts := some 0
                         phone_verified_at := none
                         sms_enabled := some false
                         metadata_ := [("theme", "dark")] } := by
  have h := remove_phone_clears_state samplePro sampleEnv rfl
  simpa using h

/- Claim C6. -/

/-- C6: for every user passing the entitlement check, `get_sms_usage`
    succeeds with the usage statistics; under the spec-modelled checker
    such a user is never Free-tier, so the Free clause holds vacuously;
    when the rate-limit collaborator allows, used plus remaining equals the
    daily limit; when it denies, used equals the daily limit. -/
theorem sms_usage_relations (u : User) (env : Env) (h : check_pro_features u = none) :
    get_sms_usage u env = .ok (sms_usage_stats u env) u ∧
    (u.subscription_tier = .FREE →
      (sms_usage_stats u env).daily_limit = 0 ∧
      (sms_usage_stats u env).remaining_today = 0) ∧
    (env.sms_allowed = true →
      (sms_usage_stats u env).used_today + (sms_usage_stats u env).remaining_today =
        (sms_usage_stats u env).daily_limit) ∧
    (env.sms_allowed = false →
      (sms_usage_stats u env).used_today = (sms_usage_stats u env).daily_limit) := by
  have htier : u.subscription_tier = .PRO ∨ u.subscription_tier = .ENTERPRISE := by
    by_contra hc
    simp [check_pro_features, hc] at h
  refine ⟨by simp [get_sms_usage, h], ?_, ?_, ?_⟩
  · intro hf
    rcases htier with h1 | h1 <;> rw [hf] at h1 <;> exact absurd h1 (by decide)
  · intro ha
    simp [sms_usage_stats, ha]
  · intro ha
    simp [sms_usage_stats, ha]

/-- C6 witness: the allowed-case relation at a concrete Pro user. -/
theorem sms_usage_relations_witness :
    (sms_usage_stats samplePro sampleEnv).used_today +
        (sms_usage_stats samplePro sampleEnv).remaining_today =
      (sms_usage_stats samplePro sampleEnv).daily_limit :=
  (sms_usage_relations samplePro sampleEnv (by decide)).2.2.1 rfl

/- Claim C7. -/

/-- C7: for an unverified phone, `update_sms_settings` fails with a 400
    bad-request error and leaves the user unchanged; for a verified phone
    it sets the sms-enabled flag to the requested value, and a subsequent
    `get_profile` reflects that value. -/
theorem update_sms_settings_gating (u : User) (env : Env) (b : Bool) :
    (u.phone_verified.getD false = false →
      update_sms_settings u b env =
        .httpError 400 "Phone number must be verified before changing SMS settings" false u) ∧
    (u.phone_verified.getD false = true → env.commit_fails = false →
      update_sms_settings u b env =
        .ok { message := "SMS settings updated successfully", sms_enabled := b }
          { u with sms_enabled := some b } ∧
      (get_profile { u with sms_enabled := some b }).sms_enabled = b) := by
  refine ⟨?_, ?_⟩
  · intro hv
    simp [update_sms_settings, hv]
  · intro hv hc
    exact ⟨by simp [update_sms_settings, hv, hc], by simp [get_profile]⟩

/-- C7 witness: the theorem at a concrete verified user. -/
theorem update_sms_settings_gating_witness :
    update_sms_settings { samplePro with phone_verified := some true } false sampleEnv =
      .ok { message := "SMS settings updated successfully", sms_enabled := false }
        { samplePro with phone_verified := some true, sms_enabled := some false } ∧
    (get_profile { samplePro with phone_verified := some true, sms_enabled := some false }).sms_enabled = false := by
  have h := (update_sms_settings_gating { samplePro with phone_verified := some true }
    sampleEnv false).2 rfl rfl
  simpa using h

/- Claim C8. -/

/-- C8 counterexample: under Python semantics the dollar anchor also
    matches just before a trailing newline, so the validator accepts a
    seven-character input of six digits followed by a newline and returns
    it unchanged, refuting the claim that only exactly-six-digit strings
    are accepted. -/
theorem code_validator_trailing_newline_cex :
    validate_code "123456\n" = some "123456\n" ∧
    ¬ ("123456\n".data.length = 6 ∧ "123456\n".data.all Char.isDigit) := by decide

/-- C8 (amended): the verification-code validator accepts an input exactly
    when it consists of six digit characters optionally followed by one
    trailing newline (the dollar anchor also matching before a final
    newline), and the accepted value is the input unchanged. -/
theorem code_validator_characterization (v s : String) :
    validate_code v = some s ↔
      s = v ∧ ((v.data.length = 6 ∧ v.data.all Char.isDigit) ∨
        (v.data.length = 7 ∧ (v.data.take 6).all Char.isDigit ∧ v.data.drop 6 = ['\n'])) := by
  rcases h2 : pyDigitConsume 6 v.data with _ | r
  · simp only [validate_code, h2, Option.elim, Bool.false_eq_true, if_false]
    constructor
    · intro hfalse
      exact absurd hfalse (by simp)
    · rintro ⟨hs, ⟨h6, hd⟩ | ⟨h7, hd, hn⟩⟩
      · have : pyDigitConsume 6 v.data = some (v.data.drop 6) :=
          (pyDigitConsume_eq_some 6 v.data (v.data.drop 6)).2
            ⟨by omega, by rwa [List.take_of_length_le (by omega)], rfl⟩
        rw [h2] at this
        exact absurd this (by simp)
      · have : pyDigitConsume 6 v.data = some (v.data.drop 6) :=
          (pyDigitConsume_eq_some 6 v.data (v.data.drop 6)).2 ⟨by omega, hd, rfl⟩
        rw [h2] at this
        exact absurd this (by simp)
  · obtain ⟨hle, hall, hrr⟩ := (pyDigitConsume_eq_some 6 v.data r).1 h2
    subst hrr
    simp only [validate_code, h2, Option.elim]
    by_cases hd : pyDollarAt (v.data.drop 6) = true
    · rcases (pyDollarAt_iff _).1 hd with he | he
      · have h6 : v.data.length = 6 := by
          have := List.drop_eq_nil_iff.1 he
          omega
        have htake : v.data.take 6 = v.data := List.take_of_length_le (by omega)
        simp only [hd, if_true]
        constructor
        · intro hv
          refine ⟨(Option.some_inj.1 hv).symm, Or.inl ⟨h6, ?_⟩⟩
          rwa [← htake]
        · rintro ⟨hs, _⟩
          rw [hs]
      · have h7 : v.data.length = 7 := by
          have : (v.data.drop 6).length = 1 := by rw [he]; rfl
          rw [List.length_drop] at this
          omega
        simp only [hd, if_true]
        constructor
        · intro hv
          exact ⟨(Option.some_inj.1 hv).symm, Or.inr ⟨h7, hall, he⟩⟩
        · rintro ⟨hs, _⟩
          rw [hs]
    · simp only [Bool.not_eq_true] at hd
      simp only [hd, Bool.false_eq_true, if_false]
      constructor
      · intro hfalse
        exact absurd hfalse (by simp)
      · rintro ⟨hs, ⟨h6, _⟩ | ⟨h7, _, hn⟩⟩
        · have : v.data.drop 6 = [] := List.drop_eq_nil_iff.2 (by omega)
          rw [this] at hd
          exact absurd hd (by simp [pyDollarAt])
        · rw [hn] at hd
          exact absurd hd (by simp [pyDollarAt])

/- Claim C9. -/

/-- C9: `remove_phone_number` and `update_sms_settings` perform no
    subscription-entitlement check and never return a permission (403)
    error for any user or environment, while `add_phone_number`,
    `verify_phone_number` and `get_sms_usage` all invoke the entitlement
    checker first and return a permission error for a Free-tier user. -/
theorem remove_update_skip_entitlement (u : User) (env : Env) (b : Bool)
    (phone code : String) :
    is_permission_error (remove_phone_number u env) = false ∧
    is_permission_error (update_sms_settings u b env) = false ∧
    (u.subscription_tier = .FREE →
      is_permission_error (add_phone_number u phone env) = true ∧
      is_permission_error (verify_phone_number u code env) = true ∧
      is_permission_error (get_sms_usage u env) = true) := by
  refine ⟨?_, ?_, ?_⟩
  · unfold remove_phone_number
    cases hc : env.commit_fails <;> simp [is_permission_error]
  · unfold update_sms_settings
    cases hv : u.phone_verified.getD false <;> cases hc : env.commit_fails <;>
      simp [is_permission_error]
  · intro hf
    have hcp : check_pro_features u =
        some (403, "SMS integration requires a Pro or Enterprise subscription") := by
      simp [check_pro_features, hf]
    exact ⟨by simp [add_phone_number, hcp, is_permission_error],
      by simp [verify_phone_number, hcp, is_permission_error],
      by simp [get_sms_usage, hcp, is_permission_error]⟩

/-- C9 witness: the theorem at a concrete Free-tier user. -/
theorem remove_update_skip_entitlement_witness :
    is_permission_error (remove_phone_number sampleFree sampleEnv) = false ∧
    is_permission_error (update_sms_settings sampleFree true sampleEnv) = false ∧
    is_permission_error (add_phone_number sampleFree "+15551234567" sampleEnv) = true ∧
    is_permission_error (verify_phone_number sampleFree "123456" sampleEnv) = true ∧
    is_permission_error (get_sms_usage sampleFree sampleEnv) = true := by
  have h := remove_update_skip_entitlement sampleFree sampleEnv true "+15551234567" "123456"
  exact ⟨h.1, h.2.1, (h.2.2 rfl).1, (h.2.2 rfl).2.1, (h.2.2 rfl).2.2⟩

/- Claim C10. -/

/-- C10: the usage computation that runs after the entitlement check of
    `get_sms_usage` assigns a zero daily limit to any tier other than Pro
    and Enterprise, and when the rate-limit collaborator reports allowed it
    computes used-today as 0 minus the reported remaining, which is
    negative whenever remaining is positive. -/
theorem free_tier_usage_negative (u : User) (env : Env)
    (h1 : u.subscription_tier ≠ .PRO) (h2 : u.subscription_tier ≠ .ENTERPRISE) :
    (sms_usage_stats u env).daily_limit = 0 ∧
    (env.sms_allowed = true →
      (sms_usage_stats u env).used_today = 0 - env.sms_remaining) ∧
    (env.sms_allowed = true → 0 < env.sms_remaining →
      (sms_usage_stats u env).used_today < 0) := by
  have hf : u.subscription_tier = .FREE := by
    cases h : u.subscription_tier
    · rfl
    · exact absurd h h1
    · exact absurd h h2
  refine ⟨by simp [sms_usage_stats, hf], ?_, ?_⟩
  · intro ha
    simp [sms_usage_stats, hf, ha]
  · intro ha hr
    simp [sms_usage_stats, hf, ha]
    omega

/-- C10 witness: at a concrete Free-tier user and an allowing environment
    with one remaining message, used-today is negative. -/
theorem free_tier_usage_negative_witness :
    (sms_usage_stats sampleFree { sampleEnv with sms_remaining := 1 }).used_today < 0 :=
  (free_tier_usage_negative sampleFree { sampleEnv with sms_remaining := 1 }
    (by decide) (by decide)).2.2 rfl (by decide)
